import Mathlib

/-!
Verification development for `fastapi_rest_utils`, a thin declarative routing
layer over a host web framework.  We give a shallow embedding of the repository
code:

* `RouteConfig` embeds the `RouteConfigDict` TypedDict of
  `fastapi_rest_utils/protocols.py` (required keys `path`, `method`,
  `endpoint_name`, `response_model`; the remaining keys are optional, so every
  field read through `.get` is an `Option`).
* `registerViewset` embeds `RestRouter.register_viewset` of
  `fastapi_rest_utils/router.py` line by line: construct one viewset instance,
  read its `routes_config()`, and for each descriptor resolve the handler
  attribute, concatenate the path, pop the caller-supplied `dependencies`
  keyword (a mutation of the kwargs dict, threaded explicitly here), and call
  the host framework's `add_api_route` primitive.

Python values that this layer never inspects (dependency objects, response
schemas, OpenAPI-extra mappings, kwargs values) are an abstract type `Obj`.
An exception is modelled as an `Option RegError` result; routes added before
the exception remain, exactly as the Python list mutation leaves them.
-/

set_option autoImplicit false

namespace FastapiRestUtils

variable {Obj : Type}

/-- Embeds `RouteConfigDict` from `protocols.py`: one route descriptor.
`path`, `method`, `endpoint_name` are required strings; `response_model` is
required by the TypedDict but read via `.get` in the router, and the rest of
the keys are declared `total=False`, hence the `Option` fields. -/
structure RouteConfig (Obj : Type) where
  path : String
  method : String
  endpoint_name : String
  response_model : Option Obj
  dependencies : Option (List Obj)
  tags : Option (List String)
  openapi_extra : Option Obj
  name : Option String
  summary : Option String
  description : Option String
  deprecated : Option Bool
  include_in_schema : Option Bool
  kwargs : Option Obj
deriving DecidableEq

/-- A viewset class: the attribute names that exist on a constructed instance
(handler methods among them), and the descriptor list its `routes_config()`
returns.  The spec declares descriptors at class-definition time. -/
structure ViewsetClass (Obj : Type) where
  handlerNames : List String
  routes_config : List (RouteConfig Obj)
deriving DecidableEq

/-- A constructed viewset instance: `viewset_class()`.  The `id` field tracks
Python object identity so that binding a method to an instance is observable. -/
structure ViewsetInstance where
  id : Nat
  handlerNames : List String
deriving DecidableEq

/-- Embeds the call `viewset_class()`: constructing an instance consumes one
fresh object identity. -/
def constructInstance (cls : ViewsetClass Obj) (fresh : Nat) : ViewsetInstance :=
  ⟨fresh, cls.handlerNames⟩

/-- A bound method, as returned by `getattr(viewset, name)`: it is determined
by the instance it is bound to and the attribute name. -/
structure Endpoint where
  instanceId : Nat
  attr : String
deriving DecidableEq

/-- Embeds `getattr(viewset, route_config['endpoint_name'])`: succeeds with the
bound method when the attribute exists on the instance, otherwise the
`AttributeError` path (`none`). -/
def getattrEndpoint (inst : ViewsetInstance) (attrName : String) : Option Endpoint :=
  if attrName ∈ inst.handlerNames then some ⟨inst.id, attrName⟩ else none

/-- The exceptions this layer can propagate during registration. -/
inductive RegError where
  | attributeError (attrName : String)
deriving DecidableEq

/-- A registered route entry, as handed to the host framework's
`add_api_route` primitive: the arguments `register_viewset` passes at
`router.py` lines 43-52.  `extraKwargs` holds the remaining `**kwargs`
forwarded after `dependencies` was popped. -/
structure APIRoute (Obj : Type) where
  path : String
  endpoint : Endpoint
  methods : List String
  tags : Option (List String)
  response_model : Option Obj
  openapi_extra : Option Obj
  dependencies : List Obj
  extraKwargs : List (String × Obj)
deriving DecidableEq

/-- Modelled from the spec: the host framework's native "add route" primitive
(`APIRouter.add_api_route`) is outside this repository; per the spec its side
effect is appending to "the router's internal route table".  We model the
table as a list and the primitive as an append. -/
def addApiRoute (routes : List (APIRoute Obj)) (r : APIRoute Obj) : List (APIRoute Obj) :=
  routes ++ [r]

/-- The caller's `**kwargs` dict as `register_viewset` uses it: the only key it
ever touches is `"dependencies"` (via `pop`), so we split the dict into that
binding and the rest. -/
structure Kwargs (Obj : Type) where
  dependencies : Option (List Obj)
  rest : List (String × Obj)
deriving DecidableEq

/-- Embeds `kwargs.pop("dependencies", [])`: returns the stored list (or the
default `[]`) and removes the key from the dict. -/
def popDependencies (kw : Kwargs Obj) : List Obj × Kwargs Obj :=
  (kw.dependencies.getD [], { kw with dependencies := none })

/-- The for-loop body of `register_viewset` (`router.py` lines 33-52), iterated
over the descriptor list.  State threaded through the loop: the kwargs dict
(mutated by `pop`) and the router's route table (mutated by `add_api_route`).
An unhandled `AttributeError` stops the loop; the routes already added stay. -/
def registerLoop (inst : ViewsetInstance) (pre : String) (tags : Option (List String)) :
    List (RouteConfig Obj) → Kwargs Obj → List (APIRoute Obj) →
    List (APIRoute Obj) × Option RegError
  | [], _, routes => (routes, none)
  | rc :: restConfigs, kw, routes =>
    match getattrEndpoint inst rc.endpoint_name with
    | none => (routes, some (RegError.attributeError rc.endpoint_name))
    | some endpoint =>
      let path := pre ++ rc.path
      let response_model := rc.response_model
      let openapi_extra := rc.openapi_extra
      let route_dependencies := rc.dependencies.getD []
      let popped := popDependencies kw
      let kwargs_dependencies := popped.1
      let kw' := popped.2
      let all_dependencies := route_dependencies ++ kwargs_dependencies
      let routes' := addApiRoute routes
        { path := path
          endpoint := endpoint
          methods := [rc.method]
          tags := tags
          response_model := response_model
          openapi_extra := openapi_extra
          dependencies := all_dependencies
          extraKwargs := kw'.rest }
      registerLoop inst pre tags restConfigs kw' routes'

/-- The outcome of one `register_viewset` call: the router's route table, the
next fresh object identity (one instance was constructed), and the exception
propagated, if any. -/
structure RegResult (Obj : Type) where
  routes : List (APIRoute Obj)
  nextFresh : Nat
  error : Option RegError
deriving DecidableEq

/-- Embeds `RestRouter.register_viewset` (`router.py` lines 14-52):
`viewset = viewset_class()`, `routes_config = viewset.routes_config()`, then
the registration loop.  `routes` is the router's route table (`self`), `fresh`
the next unused object identity. -/
def registerViewset (routes : List (APIRoute Obj)) (cls : ViewsetClass Obj)
    (pre : String) (tags : Option (List String)) (kw : Kwargs Obj) (fresh : Nat) :
    RegResult Obj :=
  let viewset := constructInstance cls fresh
  let r := registerLoop viewset pre tags cls.routes_config kw routes
  ⟨r.1, fresh + 1, r.2⟩

/-! ### Characterisation of the registration loop -/

/-- The kwargs dict after `pop("dependencies", [])` removed the key. -/
def popKw (kw : Kwargs Obj) : Kwargs Obj := { kw with dependencies := none }

/-- The route record one successful loop iteration hands to `add_api_route`,
given the kwargs dict as it stands at that iteration. -/
def mkRoute (inst : ViewsetInstance) (pre : String) (tags : Option (List String))
    (kw : Kwargs Obj) (rc : RouteConfig Obj) : APIRoute Obj :=
  { path := pre ++ rc.path
    endpoint := ⟨inst.id, rc.endpoint_name⟩
    methods := [rc.method]
    tags := tags
    response_model := rc.response_model
    openapi_extra := rc.openapi_extra
    dependencies := rc.dependencies.getD [] ++ kw.dependencies.getD []
    extraKwargs := kw.rest }

/-- The sequence of route records the loop appends when every handler
resolves: the kwargs dict loses its `dependencies` key after the first
iteration. -/
def addedRoutes (inst : ViewsetInstance) (pre : String) (tags : Option (List String)) :
    Kwargs Obj → List (RouteConfig Obj) → List (APIRoute Obj)
  | _, [] => []
  | kw, rc :: restConfigs =>
    mkRoute inst pre tags kw rc :: addedRoutes inst pre tags (popKw kw) restConfigs

/-- The fields of a descriptor that `register_viewset` actually reads. -/
def readFields (rc : RouteConfig Obj) :
    String × String × String × Option Obj × Option Obj × Option (List Obj) :=
  (rc.path, rc.method, rc.endpoint_name, rc.response_model, rc.openapi_extra,
    rc.dependencies)

/-! ### The dependency-injection helpers of `deps.py` -/

/-- How a parameter of a produced callable satisfies the host framework's
dependency-declaration convention: either it receives the current request or
it declares a nested dependency on a provider. -/
inductive ParamKind (Obj : Type) where
  | request
  | depends (provider : Obj)
deriving DecidableEq

/-- One parameter of a Python callable: its name and its declared kind. -/
structure Param (Obj : Type) where
  name : String
  kind : ParamKind Obj
deriving DecidableEq

/-- A produced callable, modelled as its ordered parameter list. -/
structure ProducedCallable (Obj : Type) where
  params : List (Param Obj)
deriving DecidableEq

/-- Modelled from the spec: the module `fastapi_rest_utils/deps.py` is not
present under `src/` (only `tests/test_deps.py` imports it).  Per spec
section 4.4 and the test, `db_dep_injector` wraps a session provider into a
callable whose parameter list holds the current request (`request`) and a
nested dependency named `db` on the wrapped provider. -/
def db_dep_injector (provider : Obj) : ProducedCallable Obj :=
  ⟨[⟨"request", ParamKind.request⟩, ⟨"db", ParamKind.depends provider⟩]⟩

/-- Modelled from the spec: `auth_dep_injector`, also in the missing
`deps.py`, wraps a user-resolution provider into a callable taking the current
request (`request`) and a nested dependency named `user` on the provider. -/
def auth_dep_injector (provider : Obj) : ProducedCallable Obj :=
  ⟨[⟨"request", ParamKind.request⟩, ⟨"user", ParamKind.depends provider⟩]⟩

/-! ### Concrete example data, mirroring the mock viewset of the tests -/

/-- The GET descriptor of the mock viewset in `tests/test_router.py`. -/
def exList : RouteConfig Nat :=
  { path := "/", method := "GET", endpoint_name := "list", response_model := none,
    dependencies := none, tags := none, openapi_extra := none, name := none,
    summary := none, description := none, deprecated := none,
    include_in_schema := none, kwargs := none }

/-- The POST descriptor, here with a descriptor-level dependency list `[5]`
and an OpenAPI-extra mapping (the abstract object `9`). -/
def exCreate : RouteConfig Nat :=
  { path := "/", method := "POST", endpoint_name := "create", response_model := none,
    dependencies := some [5], tags := none, openapi_extra := some 9, name := none,
    summary := none, description := none, deprecated := none,
    include_in_schema := none, kwargs := none }

/-- A two-descriptor mock viewset whose handlers both resolve. -/
def exViewset : ViewsetClass Nat :=
  { handlerNames := ["list", "create"], routes_config := [exList, exCreate] }

/-- The same viewset class with the `create` handler attribute missing. -/
def exViewsetMissing : ViewsetClass Nat :=
  { handlerNames := ["list"], routes_config := [exList, exCreate] }

/-- `exViewset` with the descriptor-level fields that `register_viewset`
never reads filled in. -/
def exViewsetDecorated : ViewsetClass Nat :=
  { handlerNames := ["list", "create"]
    routes_config :=
      [{ exList with
          tags := some ["a"]
          name := some "n"
          summary := some "s"
          description := some "d"
          deprecated := some true
          include_in_schema := some false
          kwargs := some 3 },
       { exCreate with tags := some ["b"], summary := some "t" }] }

/-- Caller-supplied kwargs carrying the dependency list `[7]` and no other
keys. -/
def exKw : Kwargs Nat := { dependencies := some [7], rest := [] }

/-! ### Helper lemmas -/

theorem popKw_popKw (kw : Kwargs Obj) : popKw (popKw kw) = popKw kw := rfl

theorem addedRoutes_length (inst : ViewsetInstance) (pre : String)
    (tags : Option (List String)) (kw : Kwargs Obj) (configs : List (RouteConfig Obj)) :
    (addedRoutes inst pre tags kw configs).length = configs.length := by
  induction configs generalizing kw with
  | nil => rfl
  | cons rc rest ih => simp [addedRoutes, ih]

theorem addedRoutes_getElem? (inst : ViewsetInstance) (pre : String)
    (tags : Option (List String)) (kw : Kwargs Obj) (configs : List (RouteConfig Obj))
    (i : Nat) (rc : RouteConfig Obj) (h : configs[i]? = some rc) :
    (addedRoutes inst pre tags kw configs)[i]? =
      some (mkRoute inst pre tags (if i = 0 then kw else popKw kw) rc) := by
  induction configs generalizing kw i with
  | nil => simp at h
  | cons rc0 rest ih =>
    cases i with
    | zero =>
      simp only [List.getElem?_cons_zero, Option.some.injEq] at h
      subst h
      simp [addedRoutes]
    | succ j =>
      simp only [List.getElem?_cons_succ] at h
      have := ih (popKw kw) j h
      simp only [addedRoutes, List.getElem?_cons_succ, this, popKw_popKw]
      cases j <;> simp

/-- When every descriptor's handler resolves, the loop returns the old table
with `addedRoutes` appended, and no exception. -/
theorem registerLoop_ok (inst : ViewsetInstance) (pre : String)
    (tags : Option (List String)) (configs : List (RouteConfig Obj)) (kw : Kwargs Obj)
    (routes : List (APIRoute Obj))
    (hres : ∀ rc ∈ configs, rc.endpoint_name ∈ inst.handlerNames) :
    registerLoop inst pre tags configs kw routes =
      (routes ++ addedRoutes inst pre tags kw configs, none) := by
  induction configs generalizing kw routes with
  | nil => simp [registerLoop, addedRoutes]
  | cons rc rest ih =>
    have hrc : rc.endpoint_name ∈ inst.handlerNames := hres rc (List.mem_cons_self _ _)
    have hrest : ∀ rc' ∈ rest, rc'.endpoint_name ∈ inst.handlerNames :=
      fun rc' h => hres rc' (List.mem_cons_of_mem _ h)
    simp only [registerLoop, getattrEndpoint, if_pos hrc]
    rw [ih _ _ hrest]
    simp [addedRoutes, addApiRoute, mkRoute, popDependencies, popKw, List.append_assoc]

/-- When the first unresolvable handler is the one of descriptor `i`, the loop
stops there with an `AttributeError` and the routes of descriptors `0..i-1`
stay in the table. -/
theorem registerLoop_err (inst : ViewsetInstance) (pre : String)
    (tags : Option (List String)) (configs : List (RouteConfig Obj)) (kw : Kwargs Obj)
    (routes : List (APIRoute Obj)) (i : Nat) (rc : RouteConfig Obj)
    (hget : configs[i]? = some rc)
    (hmiss : rc.endpoint_name ∉ inst.handlerNames)
    (hbefore : ∀ j rc', j < i → configs[j]? = some rc' →
      rc'.endpoint_name ∈ inst.handlerNames) :
    registerLoop inst pre tags configs kw routes =
      (routes ++ addedRoutes inst pre tags kw (configs.take i),
       some (RegError.attributeError rc.endpoint_name)) := by
  induction configs generalizing kw routes i with
  | nil => simp at hget
  | cons rc0 rest ih =>
    cases i with
    | zero =>
      simp only [List.getElem?_cons_zero, Option.some.injEq] at hget
      subst hget
      simp [registerLoop, getattrEndpoint, if_neg hmiss, addedRoutes]
    | succ j =>
      simp only [List.getElem?_cons_succ] at hget
      have hrc0 : rc0.endpoint_name ∈ inst.handlerNames :=
        hbefore 0 rc0 (Nat.succ_pos j) List.getElem?_cons_zero
      have hbefore' : ∀ j' rc', j' < j → rest[j']? = some rc' →
          rc'.endpoint_name ∈ inst.handlerNames :=
        fun j' rc' hj hg => hbefore (j' + 1) rc' (Nat.succ_lt_succ hj) (by simpa using hg)
      simp only [registerLoop, getattrEndpoint, if_pos hrc0]
      rw [ih _ _ j hget hbefore']
      simp [List.take, addedRoutes, addApiRoute, mkRoute, popDependencies, popKw,
        List.append_assoc]

/-- Unfolded form of `registerViewset` when every handler resolves. -/
theorem registerViewset_ok (routes : List (APIRoute Obj)) (cls : ViewsetClass Obj)
    (pre : String) (tags : Option (List String)) (kw : Kwargs Obj) (fresh : Nat)
    (hres : ∀ rc ∈ cls.routes_config, rc.endpoint_name ∈ cls.handlerNames) :
    registerViewset routes cls pre tags kw fresh =
      ⟨routes ++ addedRoutes (constructInstance cls fresh) pre tags kw cls.routes_config,
       fresh + 1, none⟩ := by
  simp [registerViewset,
    registerLoop_ok (constructInstance cls fresh) pre tags cls.routes_config kw routes hres]

/-- The route registered for descriptor `i`, when every handler resolves: the
kwargs dict seen at iteration `i` has lost its `dependencies` key unless
`i = 0`. -/
theorem registerViewset_getElem? (routes : List (APIRoute Obj)) (cls : ViewsetClass Obj)
    (pre : String) (tags : Option (List String)) (kw : Kwargs Obj) (fresh : Nat)
    (hres : ∀ rc ∈ cls.routes_config, rc.endpoint_name ∈ cls.handlerNames)
    (i : Nat) (rc : RouteConfig Obj) (hi : cls.routes_config[i]? = some rc) :
    (registerViewset routes cls pre tags kw fresh).routes[routes.length + i]? =
      some (mkRoute (constructInstance cls fresh) pre tags
        (if i = 0 then kw else popKw kw) rc) := by
  rw [registerViewset_ok _ _ _ _ _ _ hres]
  show (routes ++ addedRoutes (constructInstance cls fresh) pre tags kw
    cls.routes_config)[routes.length + i]? = _
  rw [List.getElem?_append_right (Nat.le_add_right _ _), Nat.add_sub_cancel_left]
  exact addedRoutes_getElem? _ _ _ _ _ _ _ hi

/-- Every route the loop adds carries the caller-supplied `tags` argument. -/
theorem registerLoop_tags (inst : ViewsetInstance) (pre : String)
    (tags : Option (List String)) (configs : List (RouteConfig Obj)) (kw : Kwargs Obj)
    (routes : List (APIRoute Obj)) :
    ∀ r ∈ (registerLoop inst pre tags configs kw routes).1, r ∈ routes ∨ r.tags = tags := by
  induction configs generalizing kw routes with
  | nil => intro r hr; exact Or.inl hr
  | cons rc rest ih =>
    intro r hr
    simp only [registerLoop] at hr
    cases hge : getattrEndpoint inst rc.endpoint_name with
    | none =>
      rw [hge] at hr
      exact Or.inl hr
    | some endpoint =>
      rw [hge] at hr
      rcases ih _ _ r hr with hmem | htag
      · rcases List.mem_append.mp hmem with h | h
        · exact Or.inl h
        · right
          rcases List.mem_singleton.mp h with rfl
          rfl
      · exact Or.inr htag

/-- The loop's result depends on a descriptor only through the fields it
reads. -/
theorem registerLoop_congr (inst : ViewsetInstance) (pre : String)
    (tags : Option (List String)) (configs₁ configs₂ : List (RouteConfig Obj))
    (kw : Kwargs Obj) (routes : List (APIRoute Obj))
    (h : configs₁.map readFields = configs₂.map readFields) :
    registerLoop inst pre tags configs₁ kw routes =
      registerLoop inst pre tags configs₂ kw routes := by
  induction configs₁ generalizing configs₂ kw routes with
  | nil =>
    cases configs₂ with
    | nil => rfl
    | cons rc₂ rest₂ => simp at h
  | cons rc₁ rest₁ ih =>
    cases configs₂ with
    | nil => simp at h
    | cons rc₂ rest₂ =>
      simp only [List.map_cons, List.cons.injEq] at h
      obtain ⟨hrc, hrest⟩ := h
      simp only [readFields, Prod.mk.injEq] at hrc
      obtain ⟨hp, hm, he, hrm, hoe, hd⟩ := hrc
      simp only [registerLoop, hp, hm, he, hrm, hoe, hd]
      cases getattrEndpoint inst rc₂.endpoint_name with
      | none => rfl
      | some endpoint => exact ih rest₂ _ _ hrest

/-- The registered signature (path, methods, handler attribute) of the added
routes, in order. -/
theorem addedRoutes_map_sig (inst : ViewsetInstance) (pre : String)
    (tags : Option (List String)) (kw : Kwargs Obj) (configs : List (RouteConfig Obj)) :
    (addedRoutes inst pre tags kw configs).map
        (fun r => (r.path, r.methods, r.endpoint.attr)) =
      configs.map (fun rc => (pre ++ rc.path, [rc.method], rc.endpoint_name)) := by
  induction configs generalizing kw with
  | nil => rfl
  | cons rc rest ih => simp [addedRoutes, mkRoute, ih]

/-! ### The claims -/

/-- Claim C1, counterexample: registering the two-descriptor mock viewset with
caller-supplied dependency list `[7]` attaches `[5]` — the descriptor-level
list alone — to the second registered route, not the concatenation
`[5] ++ [7]`, so the claimed length identity fails there. -/
theorem c1_deps_concat_counterexample :
    ((registerViewset ([] : List (APIRoute Nat)) exViewset "/mock" none exKw
          0).routes[1]?).map (fun r => r.dependencies) = some [5] ∧
      ¬ ((registerViewset ([] : List (APIRoute Nat)) exViewset "/mock" none exKw
          0).routes[1]?).map (fun r => r.dependencies) = some ([5] ++ [7]) := by
  decide

/-- Claim C1, amended: the first registered route's dependency list is the
descriptor-level list concatenated with the caller-supplied list; every
subsequent route receives only its descriptor-level list, because the
caller-supplied `dependencies` keyword is popped from the kwargs dict on the
first loop iteration. -/
theorem c1_deps_concat_amended (routes : List (APIRoute Obj)) (cls : ViewsetClass Obj)
    (pre : String) (tags : Option (List String)) (kw : Kwargs Obj) (fresh : Nat)
    (hres : ∀ rc ∈ cls.routes_config, rc.endpoint_name ∈ cls.handlerNames)
    (i : Nat) (rc : RouteConfig Obj) (hi : cls.routes_config[i]? = some rc) :
    ((registerViewset routes cls pre tags kw fresh).routes[routes.length + i]?).map
        (fun r => r.dependencies) =
      some (rc.dependencies.getD [] ++
        if i = 0 then kw.dependencies.getD [] else []) := by
  rw [registerViewset_getElem? routes cls pre tags kw fresh hres i rc hi]
  cases i with
  | zero => simp [mkRoute]
  | succ j => simp [mkRoute, popKw]

/-- Claim C1, amended, witness at the mock viewset's second descriptor. -/
theorem c1_deps_concat_amended_witness :
    ((registerViewset ([] : List (APIRoute Nat)) exViewset "/mock" none exKw
          0).routes[List.length ([] : List (APIRoute Nat)) + 1]?).map
        (fun r => r.dependencies) =
      some (exCreate.dependencies.getD [] ++
        if 1 = 0 then exKw.dependencies.getD [] else []) :=
  c1_deps_concat_amended [] exViewset "/mock" none exKw 0 (by decide) 1 exCreate
    (by decide)

/-- Claim C2: when every named handler attribute resolves, registering a
viewset with N route descriptors adds exactly N entries to the router's route
table. -/
theorem c2_adds_n_routes (routes : List (APIRoute Obj)) (cls : ViewsetClass Obj)
    (pre : String) (tags : Option (List String)) (kw : Kwargs Obj) (fresh : Nat)
    (hres : ∀ rc ∈ cls.routes_config, rc.endpoint_name ∈ cls.handlerNames) :
    (registerViewset routes cls pre tags kw fresh).routes.length =
      routes.length + cls.routes_config.length := by
  rw [registerViewset_ok _ _ _ _ _ _ hres]
  show (routes ++ addedRoutes (constructInstance cls fresh) pre tags kw
    cls.routes_config).length = _
  rw [List.length_append, addedRoutes_length]

/-- Claim C2, witness: the two-descriptor mock viewset adds two routes. -/
theorem c2_adds_n_routes_witness :
    (registerViewset ([] : List (APIRoute Nat)) exViewset "/mock" none exKw
        0).routes.length =
      List.length ([] : List (APIRoute Nat)) + exViewset.routes_config.length :=
  c2_adds_n_routes [] exViewset "/mock" none exKw 0 (by decide)

/-- Claim C3: the registered path of every descriptor is the prefix string
concatenated with the descriptor's path field, verbatim. -/
theorem c3_path_verbatim (routes : List (APIRoute Obj)) (cls : ViewsetClass Obj)
    (pre : String) (tags : Option (List String)) (kw : Kwargs Obj) (fresh : Nat)
    (hres : ∀ rc ∈ cls.routes_config, rc.endpoint_name ∈ cls.handlerNames)
    (i : Nat) (rc : RouteConfig Obj) (hi : cls.routes_config[i]? = some rc) :
    ((registerViewset routes cls pre tags kw fresh).routes[routes.length + i]?).map
        (fun r => r.path) = some (pre ++ rc.path) := by
  rw [registerViewset_getElem? routes cls pre tags kw fresh hres i rc hi]
  rfl

/-- Claim C3, witness at the mock viewset's first descriptor. -/
theorem c3_path_verbatim_witness :
    ((registerViewset ([] : List (APIRoute Nat)) exViewset "/mock" none exKw
          0).routes[List.length ([] : List (APIRoute Nat)) + 0]?).map
        (fun r => r.path) = some ("/mock" ++ exList.path) :=
  c3_path_verbatim [] exViewset "/mock" none exKw 0 (by decide) 0 exList (by decide)

/-- Claim C5: the registered route of a descriptor carries the descriptor's
`openapi_extra` mapping unchanged; a descriptor without one yields a route
whose OpenAPI extras are `none`. -/
theorem c5_openapi_extra_forwarded (routes : List (APIRoute Obj))
    (cls : ViewsetClass Obj) (pre : String) (tags : Option (List String))
    (kw : Kwargs Obj) (fresh : Nat)
    (hres : ∀ rc ∈ cls.routes_config, rc.endpoint_name ∈ cls.handlerNames)
    (i : Nat) (rc : RouteConfig Obj) (hi : cls.routes_config[i]? = some rc) :
    ((registerViewset routes cls pre tags kw fresh).routes[routes.length + i]?).map
        (fun r => r.openapi_extra) = some rc.openapi_extra := by
  rw [registerViewset_getElem? routes cls pre tags kw fresh hres i rc hi]
  rfl

/-- Claim C5, witness at the POST descriptor (which carries an extra) of the
mock viewset. -/
theorem c5_openapi_extra_forwarded_witness :
    ((registerViewset ([] : List (APIRoute Nat)) exViewset "/mock" none exKw
          0).routes[List.length ([] : List (APIRoute Nat)) + 1]?).map
        (fun r => r.openapi_extra) = some exCreate.openapi_extra :=
  c5_openapi_extra_forwarded [] exViewset "/mock" none exKw 0 (by decide) 1 exCreate
    (by decide)

/-- Claim C6: the entries added to the route table appear in descriptor
order — the sequence of (path, methods, handler attribute) of the added
routes equals the corresponding sequence over `routes_config`. -/
theorem c6_descriptor_order (routes : List (APIRoute Obj)) (cls : ViewsetClass Obj)
    (pre : String) (tags : Option (List String)) (kw : Kwargs Obj) (fresh : Nat)
    (hres : ∀ rc ∈ cls.routes_config, rc.endpoint_name ∈ cls.handlerNames) :
    ((registerViewset routes cls pre tags kw fresh).routes.drop routes.length).map
        (fun r => (r.path, r.methods, r.endpoint.attr)) =
      cls.routes_config.map
        (fun rc => (pre ++ rc.path, [rc.method], rc.endpoint_name)) := by
  rw [registerViewset_ok _ _ _ _ _ _ hres]
  show ((routes ++ addedRoutes (constructInstance cls fresh) pre tags kw
    cls.routes_config).drop routes.length).map _ = _
  rw [List.drop_left]
  exact addedRoutes_map_sig _ _ _ _ _

/-- Claim C6, witness at the mock viewset. -/
theorem c6_descriptor_order_witness :
    ((registerViewset ([] : List (APIRoute Nat)) exViewset "/mock" none exKw
          0).routes.drop (List.length ([] : List (APIRoute Nat)))).map
        (fun r => (r.path, r.methods, r.endpoint.attr)) =
      exViewset.routes_config.map
        (fun rc => ("/mock" ++ rc.path, [rc.method], rc.endpoint_name)) :=
  c6_descriptor_order [] exViewset "/mock" none exKw 0 (by decide)

/-- Claim C4: when descriptor `i` names a handler attribute missing from the
constructed instance (and all earlier descriptors resolve), registration
ends with exactly the `AttributeError` for that attribute — untranslated,
unwrapped, no retry — and the routes already added for the earlier
descriptors remain in the route table. -/
theorem c4_attribute_error_propagates (routes : List (APIRoute Obj))
    (cls : ViewsetClass Obj) (pre : String) (tags : Option (List String))
    (kw : Kwargs Obj) (fresh : Nat) (i : Nat) (rc : RouteConfig Obj)
    (hget : cls.routes_config[i]? = some rc)
    (hmiss : rc.endpoint_name ∉ cls.handlerNames)
    (hbefore : ∀ j rc', j < i → cls.routes_config[j]? = some rc' →
      rc'.endpoint_name ∈ cls.handlerNames) :
    (registerViewset routes cls pre tags kw fresh).error =
        some (RegError.attributeError rc.endpoint_name) ∧
      (registerViewset routes cls pre tags kw fresh).routes.length =
        routes.length + i ∧
      ∀ j rc', j < i → cls.routes_config[j]? = some rc' →
        ((registerViewset routes cls pre tags kw fresh).routes[routes.length + j]?).map
            (fun r => (r.path, r.endpoint.attr)) =
          some (pre ++ rc'.path, rc'.endpoint_name) := by
  have hlen : i < cls.routes_config.length := by
    rcases List.getElem?_eq_some.mp hget with ⟨h, _⟩
    exact h
  have hloop := registerLoop_err (constructInstance cls fresh) pre tags
    cls.routes_config kw routes i rc hget hmiss hbefore
  have hreg : registerViewset routes cls pre tags kw fresh =
      ⟨routes ++ addedRoutes (constructInstance cls fresh) pre tags kw
          (cls.routes_config.take i),
        fresh + 1, some (RegError.attributeError rc.endpoint_name)⟩ := by
    simp [registerViewset, hloop]
  refine ⟨by rw [hreg], ?_, ?_⟩
  · rw [hreg]
    show (routes ++ addedRoutes (constructInstance cls fresh) pre tags kw
      (cls.routes_config.take i)).length = _
    rw [List.length_append, addedRoutes_length, List.length_take,
      Nat.min_eq_left (Nat.le_of_lt hlen)]
  · intro j rc' hj hgj
    rw [hreg]
    show ((routes ++ addedRoutes (constructInstance cls fresh) pre tags kw
      (cls.routes_config.take i))[routes.length + j]?).map _ = _
    rw [List.getElem?_append_right (Nat.le_add_right _ _), Nat.add_sub_cancel_left]
    have htake : (cls.routes_config.take i)[j]? = some rc' := by
      rw [List.getElem?_take_of_lt hj]
      exact hgj
    rw [addedRoutes_getElem? _ _ _ _ _ _ _ htake]
    rfl

/-- Claim C4, witness: the mock viewset missing its `create` handler fails
with the `AttributeError` for `create` while keeping the one route added for
the first descriptor. -/
theorem c4_attribute_error_propagates_witness :
    (registerViewset ([] : List (APIRoute Nat)) exViewsetMissing "/mock" none exKw
          0).error = some (RegError.attributeError exCreate.endpoint_name) ∧
      (registerViewset ([] : List (APIRoute Nat)) exViewsetMissing "/mock" none exKw
          0).routes.length = List.length ([] : List (APIRoute Nat)) + 1 := by
  have h := c4_attribute_error_propagates [] exViewsetMissing "/mock" none exKw 0 1
    exCreate (by decide) (by decide)
    (by
      intro j rc' hj hg
      have hj0 : j = 0 := Nat.lt_one_iff.mp hj
      subst hj0
      rw [show exViewsetMissing.routes_config[0]? = some exList from by decide] at hg
      injection hg with h0
      subst h0
      decide)
  exact ⟨h.1, h.2.1⟩

/-- Claim C7: for every provider, the callable produced by `db_dep_injector`
has a request parameter named `request` and a nested-dependency parameter
named `db` on the provider; `auth_dep_injector` likewise produces `request`
and a nested-dependency parameter named `user`. -/
theorem c7_injector_signatures (provider : Obj) :
    ((⟨"request", ParamKind.request⟩ : Param Obj) ∈ (db_dep_injector provider).params ∧
      (⟨"db", ParamKind.depends provider⟩ : Param Obj) ∈
        (db_dep_injector provider).params) ∧
      ((⟨"request", ParamKind.request⟩ : Param Obj) ∈
          (auth_dep_injector provider).params ∧
        (⟨"user", ParamKind.depends provider⟩ : Param Obj) ∈
          (auth_dep_injector provider).params) := by
  simp [db_dep_injector, auth_dep_injector]

/-- Claim C8: with at least two descriptors and a non-empty caller-supplied
dependency list, only the first registered route's dependency list contains
the caller-supplied dependencies; every later route receives exactly its own
descriptor-level list. -/
theorem c8_caller_deps_first_route_only (routes : List (APIRoute Obj))
    (cls : ViewsetClass Obj) (pre : String) (tags : Option (List String))
    (kw : Kwargs Obj) (fresh : Nat) (l : List Obj)
    (hres : ∀ rc ∈ cls.routes_config, rc.endpoint_name ∈ cls.handlerNames)
    (hlen : 2 ≤ cls.routes_config.length)
    (hkw : kw.dependencies = some l) (hl : l ≠ []) :
    (∀ rc0, cls.routes_config[0]? = some rc0 →
      ((registerViewset routes cls pre tags kw fresh).routes[routes.length]?).map
          (fun r => r.dependencies) = some (rc0.dependencies.getD [] ++ l)) ∧
      ∀ i rc, 1 ≤ i → cls.routes_config[i]? = some rc →
        ((registerViewset routes cls pre tags kw fresh).routes[routes.length + i]?).map
            (fun r => r.dependencies) = some (rc.dependencies.getD []) := by
  constructor
  · intro rc0 h0
    have h := registerViewset_getElem? routes cls pre tags kw fresh hres 0 rc0 h0
    rw [Nat.add_zero] at h
    rw [h]
    simp [mkRoute, hkw]
  · intro i rc h1 hi
    have h := registerViewset_getElem? routes cls pre tags kw fresh hres i rc hi
    rw [h]
    have hne : ¬ i = 0 := by omega
    simp [mkRoute, if_neg hne, popKw]

/-- Claim C8, witness: with caller-supplied dependency list `[7]`, the mock
viewset's first route gets `[7]` appended while the second keeps only its
descriptor-level `[5]`. -/
theorem c8_caller_deps_first_route_only_witness :
    ((registerViewset ([] : List (APIRoute Nat)) exViewset "/mock" none exKw
          0).routes[List.length ([] : List (APIRoute Nat))]?).map
        (fun r => r.dependencies) = some (exList.dependencies.getD [] ++ [7]) ∧
      ((registerViewset ([] : List (APIRoute Nat)) exViewset "/mock" none exKw
            0).routes[List.length ([] : List (APIRoute Nat)) + 1]?).map
          (fun r => r.dependencies) = some (exCreate.dependencies.getD []) := by
  have h := c8_caller_deps_first_route_only [] exViewset "/mock" none exKw 0 [7]
    (by decide) (by decide) rfl (by decide)
  exact ⟨h.1 exList (by decide), h.2 1 exCreate (by decide) (by decide)⟩

/-- Claim C9: one `register_viewset` call constructs exactly one viewset
instance (the fresh-identity counter advances by one), and every registered
endpoint is the handler attribute bound to that same single instance. -/
theorem c9_single_instance (routes : List (APIRoute Obj)) (cls : ViewsetClass Obj)
    (pre : String) (tags : Option (List String)) (kw : Kwargs Obj) (fresh : Nat)
    (hres : ∀ rc ∈ cls.routes_config, rc.endpoint_name ∈ cls.handlerNames) :
    (registerViewset routes cls pre tags kw fresh).nextFresh = fresh + 1 ∧
      ∀ i rc, cls.routes_config[i]? = some rc →
        ((registerViewset routes cls pre tags kw fresh).routes[routes.length + i]?).map
            (fun r => r.endpoint) = some ⟨fresh, rc.endpoint_name⟩ := by
  constructor
  · rfl
  · intro i rc hi
    rw [registerViewset_getElem? routes cls pre tags kw fresh hres i rc hi]
    rfl

/-- Claim C9, witness at the mock viewset: the counter advances from 0 to 1
and the first route's endpoint is bound to instance 0. -/
theorem c9_single_instance_witness :
    (registerViewset ([] : List (APIRoute Nat)) exViewset "/mock" none exKw
        0).nextFresh = 0 + 1 ∧
      ((registerViewset ([] : List (APIRoute Nat)) exViewset "/mock" none exKw
            0).routes[List.length ([] : List (APIRoute Nat)) + 0]?).map
          (fun r => r.endpoint) = some ⟨0, exList.endpoint_name⟩ := by
  have h := c9_single_instance [] exViewset "/mock" none exKw 0 (by decide)
  exact ⟨h.1, h.2 0 exList (by decide)⟩

/-- Claim C10: `register_viewset` reads only `path`, `method`,
`endpoint_name`, `response_model`, `openapi_extra` and `dependencies` of each
descriptor — two viewsets agreeing on those fields (and on their attribute
set) register identically, whatever their `tags`, `name`, `summary`,
`description`, `deprecated`, `include_in_schema` and `kwargs` fields — and
every registered route carries the caller-supplied `tags` argument. -/
theorem c10_ignored_fields (routes : List (APIRoute Obj)) (cls₁ cls₂ : ViewsetClass Obj)
    (pre : String) (tags : Option (List String)) (kw : Kwargs Obj) (fresh : Nat)
    (hh : cls₁.handlerNames = cls₂.handlerNames)
    (hcfg : cls₁.routes_config.map readFields = cls₂.routes_config.map readFields) :
    registerViewset routes cls₁ pre tags kw fresh =
        registerViewset routes cls₂ pre tags kw fresh ∧
      ∀ r ∈ (registerViewset routes cls₁ pre tags kw fresh).routes,
        r ∈ routes ∨ r.tags = tags := by
  have hinst : constructInstance cls₁ fresh = constructInstance cls₂ fresh := by
    simp [constructInstance, hh]
  constructor
  · simp only [registerViewset]
    rw [hinst, registerLoop_congr _ _ _ _ _ _ _ hcfg]
  · intro r hr
    exact registerLoop_tags _ _ _ _ _ _ r hr

/-- Claim C10, witness: filling in every ignored descriptor field of the mock
viewset leaves the registration result unchanged. -/
theorem c10_ignored_fields_witness :
    registerViewset ([] : List (APIRoute Nat)) exViewsetDecorated "/mock" none exKw 0 =
      registerViewset ([] : List (APIRoute Nat)) exViewset "/mock" none exKw 0 := by
  have h := c10_ignored_fields [] exViewsetDecorated exViewset "/mock" none exKw 0
    (by decide) rfl
  exact h.1

end FastapiRestUtils
